import Mathlib

/-
Shallow embedding of the lichen installer core:
  src/crates/installer/src/steps/partitions.rs (the filesystem/disk steps)
  src/lichen_cli/src/main.rs (the CliContext command operations and the driver loops)

Child processes are modelled by an explicit per-invocation behavior record
describing what the operating system does for that one spawn: whether the
spawn fails, whether writing the supplied input to the child fails, whether
waiting fails, and otherwise the captured output the child produces.
-/

/-- Exit status of a child process, mirroring std ExitStatus: success means code 0. -/
structure ExitStatus where
  code : Int
deriving DecidableEq, Repr

/-- ExitStatus::success. -/
def ExitStatus.success (s : ExitStatus) : Bool := s.code == 0

/-- Captured output of a child process, mirroring std Output. -/
structure Output where
  status : ExitStatus
  stdout : List Nat
  stderr : List Nat
deriving DecidableEq, Repr

/-- A command to spawn: program name plus argument vector. -/
structure Cmd where
  program : String
  args : List String
deriving DecidableEq, Repr

/-- The shared error taxonomy, mirroring installer::steps::Error: an external
tool exited unsuccessfully, or an operating-system level I/O failure. -/
inductive Error where
  | commandFailed (program : String) (status : ExitStatus)
  | ioFailure (msg : String)
deriving DecidableEq, Repr

/-- What the operating system does for one spawned command: an optional spawn
failure, an optional failure writing the supplied input to the child, an
optional failure waiting for the child, and the output produced otherwise. -/
structure ProcBehavior where
  spawnErr : Option String
  stdinWriteErr : Option String
  waitErr : Option String
  output : Output
deriving DecidableEq, Repr

/-- CliContext::run_command: spawn, wait, and turn a non-success exit status
into Error::CommandFailed carrying the program name and the status. -/
def run_command (b : ProcBehavior) (cmd : Cmd) : Except Error Unit :=
  match b.spawnErr with
  | some m => Except.error (Error.ioFailure m)
  | none =>
    match b.waitErr with
    | some m => Except.error (Error.ioFailure m)
    | none =>
      if b.output.status.success then Except.ok ()
      else Except.error (Error.commandFailed cmd.program b.output.status)

/-- Observable events of one run_command_captured invocation, in order. -/
inductive Ev where
  | spawned
  | wroteStdin (s : String)
  | closedStdin
  | waited
deriving DecidableEq, Repr

/-- CliContext::run_command_captured: spawn with piped streams, write the
optional input to the child and drop the input handle (closing it), then wait
with output. The returned trace records the order of the observable events.
A failing write returns early, but the input handle still goes out of scope
and is closed before the early return; no wait happens on that path. The
captured output is returned whatever its exit status is. -/
def run_command_captured (b : ProcBehavior) (cmd : Cmd) (input : Option String) :
    List Ev × Except Error Output :=
  match b.spawnErr with
  | some m => ([], Except.error (Error.ioFailure m))
  | none =>
    match input with
    | some s =>
      match b.stdinWriteErr with
      | some m => ([Ev.spawned, Ev.closedStdin], Except.error (Error.ioFailure m))
      | none =>
        match b.waitErr with
        | some m =>
          ([Ev.spawned, Ev.wroteStdin s, Ev.closedStdin, Ev.waited],
            Except.error (Error.ioFailure m))
        | none =>
          ([Ev.spawned, Ev.wroteStdin s, Ev.closedStdin, Ev.waited],
            Except.ok b.output)
    | none =>
      match b.waitErr with
      | some m => ([Ev.spawned, Ev.closedStdin, Ev.waited], Except.error (Error.ioFailure m))
      | none => ([Ev.spawned, Ev.closedStdin, Ev.waited], Except.ok b.output)

/-- Checks that no waited event occurs before the first closedStdin event. -/
def noWaitBeforeClose : List Ev → Bool
  | [] => true
  | Ev.waited :: _ => false
  | Ev.closedStdin :: _ => true
  | _ :: r => noWaitBeforeClose r

/-- Checks that the full input is written before the first closedStdin event. -/
def writeBeforeClose (s : String) : List Ev → Bool
  | [] => false
  | Ev.closedStdin :: _ => false
  | Ev.wroteStdin t :: r => if t = s then true else writeBeforeClose s r
  | _ :: r => writeBeforeClose s r

/-- A partition, mirroring system::disk::Partition: the block-device path. -/
structure Partition where
  path : String
deriving DecidableEq, Repr

/-- The FormatPartition step data. -/
structure FormatPartition where
  partition : Partition
  filesystem : String
deriving DecidableEq, Repr

/-- Rust str::to_lowercase as used on the filesystem name, per character
(exact on the ASCII names involved here). -/
def lowercase (s : String) : String := String.mk (s.data.map Char.toLower)

/-- Outcome of one step execution: Ok, a recoverable Error, or an
unconditional abort (the Rust code reaching an unimplemented panic). -/
inductive StepOutcome where
  | ok
  | error (e : Error)
  | panicked (msg : String)
deriving DecidableEq, Repr

/-- The filesystem-name dispatch at the top of FormatPartition::execute:
lowercase the requested name, map ext4 to the mkfs.ext4 invocation on the
partition device path, and hit the unimplemented arm (none) otherwise. -/
def FormatPartition.formatCmd (s : FormatPartition) : Option Cmd :=
  match lowercase s.filesystem with
  | "ext4" => some { program := "mkfs.ext4", args := [s.partition.path] }
  | _ => none

/-- FormatPartition::execute: dispatch on the filesystem name, run the
formatting command captured, discard the captured output, and return Ok;
only an Err from run_command_captured propagates. -/
def FormatPartition.execute (s : FormatPartition) (b : ProcBehavior) : StepOutcome :=
  match s.formatCmd with
  | none => StepOutcome.panicked "not implemented"
  | some cmd =>
    match (run_command_captured b cmd none).2 with
    | Except.error e => StepOutcome.error e
    | Except.ok _ => StepOutcome.ok

/-- What the operating system does for one create_dir_all call. -/
structure DirBehavior where
  createDirErr : Option String
deriving DecidableEq, Repr

/-- fs::create_dir_all over a directory-set state: creates the directory
recursively and succeeds also when it already exists; an operating-system
failure surfaces as an I/O error. -/
def create_dir_all (dirs : List String) (b : DirBehavior) (p : String) :
    List String × Except Error Unit :=
  match b.createDirErr with
  | some m => (dirs, Except.error (Error.ioFailure m))
  | none => (if p ∈ dirs then dirs else p :: dirs, Except.ok ())

/-- Observable step-level events: a recursive directory creation, and a
command invocation through run_command_captured. -/
inductive SEv where
  | createdDirAll (path : String)
  | ranCaptured (cmd : Cmd)
deriving DecidableEq, Repr

/-- The MountPartition step data. -/
structure MountPartition where
  partition : Partition
  mountpoint : String
deriving DecidableEq, Repr

/-- MountPartition::execute: ensure the mountpoint directory exists, then run
mount with the device path and the mountpoint, captured; the captured output
is discarded, so only an Err from the primitives propagates. -/
def MountPartition.execute (s : MountPartition) (dirs : List String) (db : DirBehavior)
    (pb : ProcBehavior) : List SEv × StepOutcome :=
  match (create_dir_all dirs db s.mountpoint).2 with
  | Except.error e => ([SEv.createdDirAll s.mountpoint], StepOutcome.error e)
  | Except.ok _ =>
    ([SEv.createdDirAll s.mountpoint,
      SEv.ranCaptured { program := "mount", args := [s.partition.path, s.mountpoint] }],
      match (run_command_captured pb
          { program := "mount", args := [s.partition.path, s.mountpoint] } none).2 with
      | Except.error e => StepOutcome.error e
      | Except.ok _ => StepOutcome.ok)

/-- The BindMount step data. -/
structure BindMount where
  source : String
  dest : String
deriving DecidableEq, Repr

/-- BindMount::execute: ensure the destination directory exists, then run
mount with the bind flag, the source and the destination, captured; the
captured output is discarded, so only an Err from the primitives propagates. -/
def BindMount.execute (s : BindMount) (dirs : List String) (db : DirBehavior)
    (pb : ProcBehavior) : List SEv × StepOutcome :=
  match (create_dir_all dirs db s.dest).2 with
  | Except.error e => ([SEv.createdDirAll s.dest], StepOutcome.error e)
  | Except.ok _ =>
    ([SEv.createdDirAll s.dest,
      SEv.ranCaptured { program := "mount", args := ["--bind", s.source, s.dest] }],
      match (run_command_captured pb
          { program := "mount", args := ["--bind", s.source, s.dest] } none).2 with
      | Except.error e => StepOutcome.error e
      | Except.ok _ => StepOutcome.ok)

/-- The Unmount step data. -/
structure Unmount where
  mountpoint : String
deriving DecidableEq, Repr

/-- Unmount::execute: run umount on the mountpoint, captured, discarding the
captured output; only an Err from run_command_captured propagates. -/
def Unmount.execute (s : Unmount) (pb : ProcBehavior) : StepOutcome :=
  match (run_command_captured pb { program := "umount", args := [s.mountpoint] } none).2 with
  | Except.error e => StepOutcome.error e
  | Except.ok _ => StepOutcome.ok

/-- SyncFS::execute: run sync captured and discard the entire Result, the
error case included, then return Ok. -/
def SyncFS.execute (pb : ProcBehavior) : List SEv × StepOutcome :=
  let _ := run_command_captured pb { program := "sync", args := [] } none
  ([SEv.ranCaptured { program := "sync", args := [] }], StepOutcome.ok)

/-- Result of one step execution as seen by the driver loops in main. -/
inductive StepResult where
  | ok
  | fail (e : Error)
deriving DecidableEq, Repr

/-- A step in a compiled plan, abstracted to its identity and the result its
execution produces. -/
structure PlannedStep where
  tag : Nat
  result : StepResult
deriving DecidableEq, Repr

/-- One driver loop from main: execute the steps in order, propagating the
first failure, which skips the remainder of the list. Returns the tags of
the steps actually executed and the propagated error, when one occurred. -/
def runPhase : List PlannedStep → List Nat × Option Error
  | [] => ([], none)
  | s :: rest =>
    match s.result with
    | StepResult.fail e => ([s.tag], some e)
    | StepResult.ok => (s.tag :: (runPhase rest).1, (runPhase rest).2)

/-- The driver in main: the forward loop over steps, then - only when the
forward loop completed without a propagated failure - the loop over cleanups.
Returns the executed forward tags, the executed cleanup tags, and the error
that ended the run, when one occurred. -/
def mainDriver (steps cleanups : List PlannedStep) : List Nat × List Nat × Option Error :=
  match runPhase steps with
  | (ftr, some e) => (ftr, [], some e)
  | (ftr, none) => (ftr, (runPhase cleanups).1, (runPhase cleanups).2)

/-- A behavior whose child spawns, consumes input, and exits with status 0. -/
def idleBehavior : ProcBehavior :=
  { spawnErr := none, stdinWriteErr := none, waitErr := none,
    output := { status := { code := 0 }, stdout := [], stderr := [] } }

/-- A behavior whose mkfs child spawns and exits with status 1. -/
def failedMkfsBehavior : ProcBehavior :=
  { spawnErr := none, stdinWriteErr := none, waitErr := none,
    output := { status := { code := 1 }, stdout := [], stderr := [] } }

/-- A behavior whose mount child spawns and exits with status 32. -/
def failedMountBehavior : ProcBehavior :=
  { spawnErr := none, stdinWriteErr := none, waitErr := none,
    output := { status := { code := 32 }, stdout := [], stderr := [] } }

/-- A behavior whose umount child spawns and exits with status 32, the
genuine-failure status umount uses, for instance for a busy target. -/
def busyUmountBehavior : ProcBehavior :=
  { spawnErr := none, stdinWriteErr := none, waitErr := none,
    output := { status := { code := 32 }, stdout := [], stderr := [] } }

/-- Claim C1 (code bug): with a successfully spawned mkfs.ext4 child that
exits with the non-zero status 1, FormatPartition::execute discards the
captured output and returns Ok, and in particular does not return the
CommandFailed error the claim requires; the command selected is the exact
mkfs.ext4 invocation on the device path. -/
theorem formatPartition_swallows_nonzero_exit :
    failedMkfsBehavior.output.status.success = false ∧
    FormatPartition.formatCmd { partition := { path := "/dev/sda2" }, filesystem := "ext4" } =
      some { program := "mkfs.ext4", args := ["/dev/sda2"] } ∧
    FormatPartition.execute { partition := { path := "/dev/sda2" }, filesystem := "ext4" }
        failedMkfsBehavior = StepOutcome.ok ∧
    FormatPartition.execute { partition := { path := "/dev/sda2" }, filesystem := "ext4" }
        failedMkfsBehavior ≠
      StepOutcome.error (Error.commandFailed "mkfs.ext4" { code := 1 }) := by
  decide

/-- Claim C2 (code bug): with a successfully spawned mount child exiting
with the non-zero status 32, both MountPartition::execute and
BindMount::execute discard the captured output and return Ok rather than
reporting the failure as an Error. -/
theorem mount_bind_swallow_nonzero_exit :
    failedMountBehavior.output.status.success = false ∧
    (MountPartition.execute { partition := { path := "/dev/sda2" }, mountpoint := "/tmp/lichen" }
        [] { createDirErr := none } failedMountBehavior).2 = StepOutcome.ok ∧
    (BindMount.execute { source := "/dev", dest := "/tmp/lichen/dev" }
        [] { createDirErr := none } failedMountBehavior).2 = StepOutcome.ok ∧
    (MountPartition.execute { partition := { path := "/dev/sda2" }, mountpoint := "/tmp/lichen" }
        [] { createDirErr := none } failedMountBehavior).2 ≠
      StepOutcome.error (Error.commandFailed "mount" { code := 32 }) := by
  decide

/-- Claim C9: SyncFS::execute runs the sync command with captured output and
returns Ok for every process behavior whatsoever - non-zero exit, spawn
failure and wait failure included - so a failed sync can never prevent the
run from reporting success. -/
theorem syncfs_always_ok (pb : ProcBehavior) :
    (SyncFS.execute pb).2 = StepOutcome.ok ∧
    (SyncFS.execute pb).1 = [SEv.ranCaptured { program := "sync", args := [] }] :=
  ⟨rfl, rfl⟩

/-- Claim C8 counterexample: a genuine umount failure - the child spawns and
exits with the non-zero status 32 - is not surfaced as an Error:
Unmount::execute returns Ok there, contradicting the claim's second half. -/
theorem unmount_genuine_failure_not_error :
    busyUmountBehavior.output.status.success = false ∧
    Unmount.execute { mountpoint := "/tmp/lichen" } busyUmountBehavior = StepOutcome.ok ∧
    Unmount.execute { mountpoint := "/tmp/lichen" } busyUmountBehavior ≠
      StepOutcome.error (Error.commandFailed "umount" { code := 32 }) := by
  decide

/-- Claim C8 as amended: Unmount::execute completes without a fatal Error for
every exit status of the umount tool - a not-mounted target and a genuine
tool failure alike - and only process-spawn or wait failures surface, as
wrapped I/O errors. -/
theorem unmount_best_effort (u : Unmount) (pb : ProcBehavior) :
    (pb.spawnErr = none → pb.waitErr = none → Unmount.execute u pb = StepOutcome.ok) ∧
    (∀ m, pb.spawnErr = some m →
      Unmount.execute u pb = StepOutcome.error (Error.ioFailure m)) := by
  constructor
  · intro hs hw
    unfold Unmount.execute run_command_captured
    rw [hs, hw]
  · intro m hm
    unfold Unmount.execute run_command_captured
    rw [hm]

/-- Claim C8 witness: the amended theorem applied to a concrete Unmount step
and the concrete behavior of a child exiting with status 32. -/
theorem unmount_best_effort_witness :
    Unmount.execute { mountpoint := "/tmp/lichen" } busyUmountBehavior = StepOutcome.ok :=
  (unmount_best_effort { mountpoint := "/tmp/lichen" } busyUmountBehavior).1 rfl rfl

/-- Claim C3: the two Context command operations are asymmetric. When the
child spawns and is waited on without an I/O failure, run_command returns the
CommandFailed error with the program name and status exactly when the exit
status is not success, and Ok exactly when it is; run_command_captured
returns Ok with the full captured output for every exit status, and any error
it ever returns is a wrapped spawn or stream I/O failure, never
CommandFailed. -/
theorem context_run_command_asymmetry (b : ProcBehavior) (cmd : Cmd) (inp : Option String) :
    (b.spawnErr = none → b.waitErr = none →
      ((run_command b cmd = Except.error (Error.commandFailed cmd.program b.output.status)
          ↔ b.output.status.success = false) ∧
        (run_command b cmd = Except.ok () ↔ b.output.status.success = true))) ∧
    (b.spawnErr = none → b.stdinWriteErr = none → b.waitErr = none →
      (run_command_captured b cmd inp).2 = Except.ok b.output) ∧
    (∀ e, (run_command_captured b cmd inp).2 = Except.error e →
      ∃ m, e = Error.ioFailure m) := by
  refine ⟨?_, ?_, ?_⟩
  · intro hs hw
    unfold run_command
    rw [hs, hw]
    cases hsucc : b.output.status.success <;> simp [hsucc]
  · intro hs hin hw
    unfold run_command_captured
    rw [hs, hin, hw]
    cases inp <;> rfl
  · intro e h
    unfold run_command_captured at h
    rcases hs : b.spawnErr with _ | m
    · rw [hs] at h
      rcases inp with _ | s
      · rcases hw : b.waitErr with _ | m
        · rw [hw] at h
          simp at h
        · rw [hw] at h
          simp at h
          exact ⟨m, h.symm⟩
      · rcases hin : b.stdinWriteErr with _ | m
        · rw [hin] at h
          rcases hw : b.waitErr with _ | m2
          · rw [hw] at h
            simp at h
          · rw [hw] at h
            simp at h
            exact ⟨m2, h.symm⟩
        · rw [hin] at h
          simp at h
          exact ⟨m, h.symm⟩
    · rw [hs] at h
      simp at h
      exact ⟨m, h.symm⟩

/-- Claim C3 witness: the asymmetry theorem applied to the concrete mkfs
command under the concrete behavior of a child exiting with status 1:
run_command fails with CommandFailed while run_command_captured returns the
captured output. -/
theorem context_run_command_asymmetry_witness :
    run_command failedMkfsBehavior { program := "mkfs.ext4", args := ["/dev/sda2"] } =
      Except.error (Error.commandFailed "mkfs.ext4" { code := 1 }) ∧
    (run_command_captured failedMkfsBehavior
        { program := "mkfs.ext4", args := ["/dev/sda2"] } (some "y")).2 =
      Except.ok failedMkfsBehavior.output := by
  have h := context_run_command_asymmetry failedMkfsBehavior
      { program := "mkfs.ext4", args := ["/dev/sda2"] } (some "y")
  exact ⟨((h.1 rfl rfl).1).mpr (by decide), h.2.1 rfl rfl rfl⟩

/-- Claim C4: for every run_command_captured invocation with a supplied input
string whose child spawns, the input stream is closed, no wait on the child
occurs before that close - on every path, the write-failure and wait-failure
error paths included - and whenever the write itself does not fail at the
operating-system level the full input string is written before the close,
for successful and failing child processes alike. -/
theorem captured_write_close_before_wait (b : ProcBehavior) (cmd : Cmd) (s : String)
    (hs : b.spawnErr = none) :
    (Ev.closedStdin ∈ (run_command_captured b cmd (some s)).1 ∧
      noWaitBeforeClose (run_command_captured b cmd (some s)).1 = true) ∧
    (b.stdinWriteErr = none →
      writeBeforeClose s (run_command_captured b cmd (some s)).1 = true) := by
  unfold run_command_captured
  rw [hs]
  rcases hin : b.stdinWriteErr with _ | m
  · rcases hw : b.waitErr with _ | m2 <;>
      simp [noWaitBeforeClose, writeBeforeClose]
  · simp [noWaitBeforeClose, hin]

/-- Claim C4 witness: the write-then-close theorem applied to a concrete
command, input and behavior, the full conjunction evaluated. -/
theorem captured_write_close_before_wait_witness :
    (Ev.closedStdin ∈ (run_command_captured idleBehavior
        { program := "chroot", args := ["/tmp/lichen"] } (some "passwd")).1 ∧
      noWaitBeforeClose (run_command_captured idleBehavior
        { program := "chroot", args := ["/tmp/lichen"] } (some "passwd")).1 = true) ∧
    (idleBehavior.stdinWriteErr = none →
      writeBeforeClose "passwd" (run_command_captured idleBehavior
        { program := "chroot", args := ["/tmp/lichen"] } (some "passwd")).1 = true) :=
  captured_write_close_before_wait idleBehavior
    { program := "chroot", args := ["/tmp/lichen"] } "passwd" rfl

/-- Claim C5: for every MountPartition and BindMount step whose recursive
directory creation does not hit an operating-system failure, the destination
directory creation succeeds - also when the directory is already present in
the directory state, since the state is universally quantified - and the
step-level trace is exactly the directory creation followed by the exact
mount invocation: mount with source and destination for MountPartition, and
mount with the bind flag, source and destination for BindMount. -/
theorem mount_bind_create_dir_before_mount (mp : MountPartition) (bm : BindMount)
    (dirs : List String) (db : DirBehavior) (pb : ProcBehavior)
    (h : db.createDirErr = none) :
    (create_dir_all dirs db mp.mountpoint).2 = Except.ok () ∧
    (MountPartition.execute mp dirs db pb).1 =
      [SEv.createdDirAll mp.mountpoint,
        SEv.ranCaptured { program := "mount", args := [mp.partition.path, mp.mountpoint] }] ∧
    (BindMount.execute bm dirs db pb).1 =
      [SEv.createdDirAll bm.dest,
        SEv.ranCaptured { program := "mount", args := ["--bind", bm.source, bm.dest] }] := by
  unfold MountPartition.execute BindMount.execute create_dir_all
  rw [h]
  exact ⟨rfl, rfl, rfl⟩

/-- Claim C5 witness: the create-then-mount theorem applied to the concrete
steps of the spec scenarios, with a directory state in which both
destination directories already exist. -/
theorem mount_bind_create_dir_before_mount_witness :
    (create_dir_all ["/tmp/lichen", "/tmp/lichen/dev"] { createDirErr := none }
        "/tmp/lichen").2 = Except.ok () ∧
    (MountPartition.execute { partition := { path := "/dev/sda2" }, mountpoint := "/tmp/lichen" }
        ["/tmp/lichen", "/tmp/lichen/dev"] { createDirErr := none } idleBehavior).1 =
      [SEv.createdDirAll "/tmp/lichen",
        SEv.ranCaptured { program := "mount", args := ["/dev/sda2", "/tmp/lichen"] }] ∧
    (BindMount.execute { source := "/dev", dest := "/tmp/lichen/dev" }
        ["/tmp/lichen", "/tmp/lichen/dev"] { createDirErr := none } idleBehavior).1 =
      [SEv.createdDirAll "/tmp/lichen/dev",
        SEv.ranCaptured { program := "mount", args := ["--bind", "/dev", "/tmp/lichen/dev"] }] :=
  mount_bind_create_dir_before_mount
    { partition := { path := "/dev/sda2" }, mountpoint := "/tmp/lichen" }
    { source := "/dev", dest := "/tmp/lichen/dev" }
    ["/tmp/lichen", "/tmp/lichen/dev"] { createDirErr := none } idleBehavior rfl

/-- Claim C6: two filesystem-name strings that lowercase identically make
FormatPartition select the same formatting command - the same tool and the
same argument vector - and give its execute operation identical behavior. -/
theorem formatPartition_case_insensitive (p : Partition) (a b : String) (pb : ProcBehavior)
    (h : lowercase a = lowercase b) :
    FormatPartition.formatCmd { partition := p, filesystem := a } =
      FormatPartition.formatCmd { partition := p, filesystem := b } ∧
    FormatPartition.execute { partition := p, filesystem := a } pb =
      FormatPartition.execute { partition := p, filesystem := b } pb := by
  have hcmd : FormatPartition.formatCmd { partition := p, filesystem := a } =
      FormatPartition.formatCmd { partition := p, filesystem := b } := by
    unfold FormatPartition.formatCmd
    dsimp only
    rw [h]
  refine ⟨hcmd, ?_⟩
  unfold FormatPartition.execute
  rw [hcmd]

/-- Claim C6 witness: the case-insensitivity theorem applied to the variants
EXT4 and ext4 of the supported filesystem name, the selected command
evaluated to the concrete mkfs.ext4 invocation. -/
theorem formatPartition_case_insensitive_witness :
    lowercase "EXT4" = lowercase "ext4" ∧
    FormatPartition.formatCmd { partition := { path := "/dev/sda2" }, filesystem := "EXT4" } =
      FormatPartition.formatCmd { partition := { path := "/dev/sda2" }, filesystem := "ext4" } ∧
    FormatPartition.formatCmd { partition := { path := "/dev/sda2" }, filesystem := "EXT4" } =
      some { program := "mkfs.ext4", args := ["/dev/sda2"] } :=
  ⟨by decide,
    (formatPartition_case_insensitive { path := "/dev/sda2" } "EXT4" "ext4" idleBehavior
      (by decide)).1,
    by decide⟩

/-- Claim C7: for every filesystem name that does not lowercase to the
supported ext4, FormatPartition::execute reaches the unimplemented arm and
aborts with a panic for every process behavior; it never returns Ok and
never returns a recoverable Error. -/
theorem formatPartition_unsupported_fs_aborts (p : Partition) (fs : String) (pb : ProcBehavior)
    (h : lowercase fs ≠ "ext4") :
    FormatPartition.execute { partition := p, filesystem := fs } pb =
        StepOutcome.panicked "not implemented" ∧
    FormatPartition.execute { partition := p, filesystem := fs } pb ≠ StepOutcome.ok ∧
    ∀ e, FormatPartition.execute { partition := p, filesystem := fs } pb ≠
        StepOutcome.error e := by
  have hcmd : FormatPartition.formatCmd { partition := p, filesystem := fs } = none := by
    unfold FormatPartition.formatCmd
    dsimp only
    split
    · rename_i heq
      exact absurd heq h
    · rfl
  refine ⟨?_, ?_, ?_⟩ <;> unfold FormatPartition.execute <;> rw [hcmd] <;> simp

/-- Claim C7 witness: the unsupported-filesystem theorem applied to the
concrete name btrfs, whose execution panics. -/
theorem formatPartition_unsupported_fs_aborts_witness :
    FormatPartition.execute { partition := { path := "/dev/sda1" }, filesystem := "btrfs" }
        idleBehavior = StepOutcome.panicked "not implemented" :=
  (formatPartition_unsupported_fs_aborts { path := "/dev/sda1" } "btrfs" idleBehavior
    (by decide)).1

/-- A phase loop over steps that all succeed executes every step in order
and propagates no error. -/
theorem runPhase_all_ok (l : List PlannedStep)
    (h : ∀ s ∈ l, s.result = StepResult.ok) :
    runPhase l = (l.map PlannedStep.tag, none) := by
  induction l with
  | nil => rfl
  | cons s rest ih =>
    have hs : s.result = StepResult.ok := h s (List.mem_cons_self s rest)
    have hr := ih (fun x hx => h x (List.mem_cons_of_mem s hx))
    simp [runPhase, hs, hr]

/-- A phase loop whose prefix succeeds and whose next step fails executes
exactly the prefix and the failing step, in order, skips everything after
the failure, and propagates that first error. -/
theorem runPhase_first_fail (l post : List PlannedStep) (bad : PlannedStep) (e : Error)
    (h : ∀ s ∈ l, s.result = StepResult.ok) (hb : bad.result = StepResult.fail e) :
    runPhase (l ++ bad :: post) = (l.map PlannedStep.tag ++ [bad.tag], some e) := by
  induction l with
  | nil => simp [runPhase, hb]
  | cons s rest ih =>
    have hs : s.result = StepResult.ok := h s (List.mem_cons_self s rest)
    have hr := ih (fun x hx => h x (List.mem_cons_of_mem s hx))
    simp [runPhase, hs, hr]

/-- Claim C10: the driver executes forward steps strictly in sequence order;
on the first forward failure every later forward step is skipped and - since
cleanups run only after the forward loop completes - the cleanups are
skipped entirely; and when the forward steps all succeed, a failing cleanup
aborts the remainder of the cleanup sequence. -/
theorem driver_first_failure_skips_rest
    (pre post cleanups : List PlannedStep) (bad : PlannedStep) (e : Error)
    (allSteps cpre cpost : List PlannedStep) (cbad : PlannedStep) (ec : Error)
    (hpre : ∀ s ∈ pre, s.result = StepResult.ok)
    (hbad : bad.result = StepResult.fail e)
    (hall : ∀ s ∈ allSteps, s.result = StepResult.ok)
    (hcpre : ∀ s ∈ cpre, s.result = StepResult.ok)
    (hcbad : cbad.result = StepResult.fail ec) :
    mainDriver (pre ++ bad :: post) cleanups
        = (pre.map PlannedStep.tag ++ [bad.tag], [], some e) ∧
    mainDriver allSteps (cpre ++ cbad :: cpost)
        = (allSteps.map PlannedStep.tag,
            cpre.map PlannedStep.tag ++ [cbad.tag], some ec) := by
  constructor
  · unfold mainDriver
    rw [runPhase_first_fail pre post bad e hpre hbad]
  · unfold mainDriver
    rw [runPhase_all_ok allSteps hall,
      runPhase_first_fail cpre cpost cbad ec hcpre hcbad]

/-- Claim C10 witness: the driver theorem applied to concrete plans. In the
first, step 1 fails: step 2 and the cleanup are skipped. In the second, all
forward steps succeed and cleanup 2 fails: cleanup 3 is skipped. -/
theorem driver_first_failure_skips_rest_witness :
    mainDriver
        [{ tag := 0, result := StepResult.ok },
          { tag := 1, result := StepResult.fail (Error.ioFailure "boom") },
          { tag := 2, result := StepResult.ok }]
        [{ tag := 3, result := StepResult.ok }]
      = ([0, 1], [], some (Error.ioFailure "boom")) ∧
    mainDriver
        [{ tag := 0, result := StepResult.ok }]
        [{ tag := 1, result := StepResult.ok },
          { tag := 2, result := StepResult.fail (Error.ioFailure "busy") },
          { tag := 3, result := StepResult.ok }]
      = ([0], [1, 2], some (Error.ioFailure "busy")) :=
  driver_first_failure_skips_rest
    [{ tag := 0, result := StepResult.ok }]
    [{ tag := 2, result := StepResult.ok }]
    [{ tag := 3, result := StepResult.ok }]
    { tag := 1, result := StepResult.fail (Error.ioFailure "boom") }
    (Error.ioFailure "boom")
    [{ tag := 0, result := StepResult.ok }]
    [{ tag := 1, result := StepResult.ok }]
    [{ tag := 3, result := StepResult.ok }]
    { tag := 2, result := StepResult.fail (Error.ioFailure "busy") }
    (Error.ioFailure "busy")
    (by decide) (by decide) (by decide) (by decide) (by decide)
